import Mathlib

/-!
Verification of the payment backend (Express + Stripe + nodemailer).

Shallow embedding of the three source files:
  * `routes/paymentRoutes.js` — the Stripe webhook handler `handleWebhook`;
  * `index.js` — the `POST /checkout` and `GET /verify-payment/:sessionId`
    route handlers;
  * `utils/emailService.js` — `sendPaymentConfirmation`.

External effects are made explicit:
  * `stripe.webhooks.constructEvent` either throws (bad signature) or returns
    an event, so it is passed in as an `Except String StripeEvent`;
  * `stripe.checkout.sessions.create` / `retrieve` and
    `transporter.sendMail` are passed in as functions returning `Except`,
    quantifying over every behaviour of the external service (success or
    thrown error);
  * each handler returns a response record that also records the calls it
    made to the external service (`processorCall`, `sends`), so "no external
    call is made" is a statement about the returned record.

JavaScript numbers are modelled by exact rationals (`ℚ`); `Math.round` is
`⌊x + 1/2⌋` (round half toward +∞), matching JS on every value the claims
touch (in particular `49.995 * 100` is exactly `4999.5` in IEEE doubles as
well, since the error of the double nearest to 49.995 is absorbed by the
product rounding step).  `parseFloat` is modelled on decimal literals
(optional sign, digits, decimal point, exponent), returning `none` where JS
returns NaN.  Request-body fields are modelled as strings, with the empty
string as the falsy value of the `!field` checks.
-/

namespace Pay

/-! ### Small string/number helpers (JS primitives) -/

/-- Numeric value of a decimal digit character. -/
def digitVal (c : Char) : Nat := c.toNat - 48

/-- Value of a digit string, most significant digit first. -/
def digitsToNat (ds : List Char) : Nat := ds.foldl (fun a c => 10 * a + digitVal c) 0

/-- Exponent part of a JS float literal: optional sign then digits
(`parseFloat` ignores a bare `e` with no digits after it). -/
def parseExp (cs : List Char) : Option Int :=
  match cs with
  | '-' :: rest =>
      let ds := rest.takeWhile (fun c => c.isDigit)
      if ds.isEmpty then none else some (-(digitsToNat ds : Int))
  | '+' :: rest =>
      let ds := rest.takeWhile (fun c => c.isDigit)
      if ds.isEmpty then none else some (digitsToNat ds : Int)
  | _ =>
      let ds := cs.takeWhile (fun c => c.isDigit)
      if ds.isEmpty then none else some (digitsToNat ds : Int)

/-- Core of JS `parseFloat` on a character list: optional sign, integer
digits, optional fraction, optional exponent; longest valid prefix; `none`
(JS NaN) when no digit is found.  The parsed value is returned exactly, as
a pair `(m, e)` denoting `m * 10 ^ e` (see `ratOfFloat`), so that parsing
stays in decidable integer arithmetic. -/
def parseFloatCore (cs : List Char) : Option (Int × Int) :=
  let sgn : Int × List Char :=
    match cs with
    | '-' :: rest => (-1, rest)
    | '+' :: rest => (1, rest)
    | _ => (1, cs)
  let intDigits := sgn.2.takeWhile (fun c => c.isDigit)
  let afterInt := sgn.2.drop intDigits.length
  let fracDigits : List Char :=
    match afterInt with
    | '.' :: rest => rest.takeWhile (fun c => c.isDigit)
    | _ => []
  if intDigits.isEmpty ∧ fracDigits.isEmpty then none
  else
    let afterFrac : List Char :=
      match afterInt with
      | '.' :: rest => rest.drop fracDigits.length
      | _ => afterInt
    let mantissa : Int := sgn.1 * (digitsToNat (intDigits ++ fracDigits) : Int)
    let expo : Int :=
      match afterFrac with
      | 'e' :: rest => (parseExp rest).getD 0
      | 'E' :: rest => (parseExp rest).getD 0
      | _ => 0
    some (mantissa, expo - fracDigits.length)

/-- JS `parseFloat` (decimal-literal fragment): leading whitespace is
skipped, then the longest numeric prefix is parsed; `none` models NaN.
The result denotes the exact rational `ratOfFloat`. -/
def parseFloat (s : String) : Option (Int × Int) :=
  parseFloatCore (s.data.dropWhile (fun c => c.isWhitespace))

/-- The number denoted by a `parseFloat` result: `m * 10 ^ e`. -/
def ratOfFloat (p : Int × Int) : ℚ := (p.1 : ℚ) * (10 : ℚ) ^ p.2

/-- JS `Math.round`: round half toward positive infinity. -/
def jsRound (q : ℚ) : ℤ := ⌊q + 1 / 2⌋

/-- `pre.isPrefixOf s` on the underlying character lists: JS
`s.startsWith(pre)`. -/
def strStartsWith (s pre : String) : Bool := pre.data.isPrefixOf s.data

/-- Does `pat` occur as a contiguous sublist? -/
def listOccurs (pat : List Char) : List Char → Bool
  | [] => pat.isEmpty
  | c :: cs => pat.isPrefixOf (c :: cs) || listOccurs pat cs

/-- JS `s.includes(pat)`. -/
def containsSubstr (s pat : String) : Bool := listOccurs pat.data s.data

/-- Remove the first occurrence of `pat` from the list:
JS `s.replace(pat, "")` with a non-global pattern. -/
def removeFirst (pat : List Char) : List Char → List Char
  | [] => []
  | c :: cs =>
      if pat.isPrefixOf (c :: cs) then (c :: cs).drop pat.length
      else c :: removeFirst pat cs

/-- JS `ip.replace(/::ffff:/, '')`: strip the first IPv6-mapped-IPv4 prefix
occurrence. -/
def stripV6Prefix (ip : String) : String := ⟨removeFirst ("::ffff:".data) ip.data⟩

/-- First `n` characters: JS `s.substring(0, n)`. -/
def strTake (s : String) (n : Nat) : String := ⟨s.data.take n⟩

/-- JS `Number.prototype.toFixed(2)`: nearest 2-decimal representation,
ties toward the larger value. -/
def toFixed2 (q : ℚ) : String :=
  let n : ℤ := ⌊q * 100 + 1 / 2⌋
  let m : Nat := n.natAbs
  (if n < 0 then "-" else "") ++ toString (m / 100) ++ "." ++
    (if m % 100 < 10 then "0" else "") ++ toString (m % 100)

/-! ### Notification Sender (`utils/emailService.js`) -/

/-- The `paymentData` argument of `sendPaymentConfirmation`:
`{ serverProvider, username, amount, paymentId }` with `amount` in major
units. -/
structure PaymentData where
  serverProvider : String
  username : String
  amount : ℚ
  paymentId : String
deriving DecidableEq

/-- The extra headers set on the mail: transaction id for deduplication. -/
structure MailHeaders where
  xTransactionId : String
  messageId : String
deriving DecidableEq

/-- The `mailOptions` object handed to `transporter.sendMail`. -/
structure MailOptions where
  fromAddr : String
  toAddr : String
  subject : String
  headers : MailHeaders
  html : String
deriving DecidableEq

/-- The `uniqueSubject` string built in `sendPaymentConfirmation`. -/
def uniqueSubjectOf (d : PaymentData) : String :=
  "New Payment Received - " ++ d.serverProvider ++ " - " ++ d.username ++
    " - ID: " ++ strTake d.paymentId 8

/-- The HTML body of the confirmation mail; `now` is
`new Date().toLocaleString()` at send time. -/
def paymentHtml (d : PaymentData) (now : String) : String :=
  "<div style=\"font-family: Arial, sans-serif; max-width: 600px; margin: 0 auto; padding: 20px; border: 1px solid #eee; border-radius: 10px;\">" ++
  "<h2 style=\"color: #333; text-align: center;\">Payment Notification</h2>" ++
  "<div style=\"background-color: #f8f8f8; padding: 15px; border-radius: 5px; margin: 20px 0;\">" ++
  "<p>A new payment has been successfully processed.</p>" ++
  "<h3 style=\"margin-top: 20px;\">Payment Details:</h3>" ++
  "<ul style=\"list-style: none; padding-left: 0;\">" ++
  "<li><strong>Amount:</strong> $" ++ toFixed2 d.amount ++ "</li>" ++
  "<li><strong>Server Provider:</strong> " ++ d.serverProvider ++ "</li>" ++
  "<li><strong>Username:</strong> " ++ d.username ++ "</li>" ++
  "<li><strong>Transaction ID:</strong> " ++ d.paymentId ++ "</li>" ++
  "<li><strong>Date:</strong> " ++ now ++ "</li>" ++
  "</ul></div>" ++
  "<p>This payment has been processed and the customer's account will be credited shortly.</p>" ++
  "<div style=\"text-align: center; margin-top: 30px; color: #777; font-size: 0.9em;\">" ++
  "<p>This is an automated email notification.</p>" ++
  "<p>Transaction Reference: " ++ d.paymentId ++ "</p>" ++
  "</div></div>"

/-- The full `mailOptions` record built by `sendPaymentConfirmation`:
fixed recipient, unique subject, transaction-id headers, HTML body.
`emailUser` is `process.env.EMAIL_USER`. -/
def mailOptionsOf (emailUser now : String) (d : PaymentData) : MailOptions :=
  { fromAddr := emailUser
    toAddr := "storemf69@gmail.com"
    subject := uniqueSubjectOf d
    headers :=
      { xTransactionId := d.paymentId
        messageId := "<payment-" ++ d.paymentId ++ "@bigwin.gold>" }
    html := paymentHtml d now }

/-- `sendPaymentConfirmation`: builds the mail, awaits the transport, and
converts any thrown transport error into a `false` return (the `try/catch`
around `transporter.sendMail`).  `sendMail` is the transport's behaviour. -/
def sendPaymentConfirmation (emailUser now : String) (d : PaymentData)
    (sendMail : MailOptions → Except String Unit) : Bool :=
  match sendMail (mailOptionsOf emailUser now d) with
  | Except.ok _ => true
  | Except.error _ => false

/-! ### Webhook handler (`routes/paymentRoutes.js`) -/

/-- The session metadata the checkout route attached and the webhook reads
back. -/
structure SessionMetadata where
  username : String
  serverProvider : String
deriving DecidableEq

/-- The checkout-session object carried by the event
(`event.data.object`). `amount_total` is in minor units (cents). -/
structure CheckoutSession where
  id : String
  payment_status : String
  metadata : SessionMetadata
  amount_total : Nat
deriving DecidableEq

/-- A Stripe event as returned by `stripe.webhooks.constructEvent`. -/
structure StripeEvent where
  type : String
  dataObject : CheckoutSession
deriving DecidableEq

/-- The webhook handler's observable outcome: HTTP status, response body,
and the list of Notification Sender invocations it performed (in order). -/
structure WebhookResponse where
  status : Nat
  body : String
  sends : List PaymentData
deriving DecidableEq

/-- The `paymentData` the webhook passes to `sendPaymentConfirmation`:
metadata fields, `amount_total / 100` (cents to dollars), session id. -/
def paymentDataOf (session : CheckoutSession) : PaymentData :=
  { serverProvider := session.metadata.serverProvider
    username := session.metadata.username
    amount := (session.amount_total : ℚ) / 100
    paymentId := session.id }

/-- `handleWebhook`.  `constructEvent` is the outcome of signature
verification: `Except.error msg` when `stripe.webhooks.constructEvent`
throws, `Except.ok event` otherwise.  `send` is the Notification Sender's
behaviour (it may also throw, which the inner `try/catch` swallows). -/
def handleWebhook (constructEvent : Except String StripeEvent)
    (send : PaymentData → Except String Bool) : WebhookResponse :=
  match constructEvent with
  | Except.error msg =>
      { status := 400, body := "Webhook Error: " ++ msg, sends := [] }
  | Except.ok event =>
      if event.type = "checkout.session.completed" then
        if event.dataObject.payment_status = "paid" then
          let args := paymentDataOf event.dataObject
          match send args with
          | Except.ok _ => { status := 200, body := "", sends := [args] }
          | Except.error _ => { status := 200, body := "", sends := [args] }
        else { status := 200, body := "", sends := [] }
      else { status := 200, body := "", sends := [] }

/-! ### Checkout Session Creator (`index.js`, `POST /checkout`) -/

/-- The tracking metadata object built in the checkout route. -/
structure CreateMetadata where
  requestId : String
  userIp : String
  username : String
  serverProvider : String
deriving DecidableEq

/-- The argument of `stripe.checkout.sessions.create`, flattened to the
fields the route actually sets. -/
structure CreateParams where
  currency : String
  productName : String
  productMetadata : CreateMetadata
  unit_amount : ℤ
  quantity : Nat
  mode : String
  metadata : CreateMetadata
  allowed_countries : List String
  success_url : String
  cancel_url : String
  locale : String
  expires_at : Nat
deriving DecidableEq

/-- What the processor returns on a successful `create`. -/
structure CreatedSession where
  url : String
  id : String
deriving DecidableEq

/-- The checkout route's observable outcome: HTTP status, JSON body fields,
and the processor call it made (`none` when no external call happened). -/
structure CheckoutResponse where
  status : Nat
  body_status : String
  message : Option String
  details : Option String
  url : Option String
  sessionId : Option String
  processorCall : Option CreateParams
deriving DecidableEq

/-- The tail of the checkout route after validation: the awaited
`stripe.checkout.sessions.create` call inside the `try`, whose thrown error
the `catch` turns into the 500 response. -/
def finishCreate (nodeEnv : String) (params : CreateParams)
    (result : Except String CreatedSession) : CheckoutResponse :=
  match result with
  | Except.ok session =>
      { status := 200, body_status := "success"
        message := none, details := none
        url := some session.url, sessionId := some session.id
        processorCall := some params }
  | Except.error errMsg =>
      { status := 500, body_status := "error"
        message := some "An error occurred while processing the payment"
        details := some (if nodeEnv = "development" then errMsg else "Internal server error")
        url := none, sessionId := none
        processorCall := some params }

/-- The checkout route after the required-fields check: `parsed` is the
`parseFloat` result of the amount (`none` models NaN, the `isNaN` branch);
a non-positive or too-large amount is rejected, otherwise the metadata and
session parameters are built and the processor is called. -/
def checkoutWithAmount (frontendUrl nodeEnv reqId ip : String) (nowMs : Nat)
    (serverProvider username : String) (parsed : Option (Int × Int))
    (create : CreateParams → Except String CreatedSession) : CheckoutResponse :=
  match parsed with
  | none =>
      { status := 400, body_status := "error"
        message := some "Invalid amount. Must be a positive number less than 10,000"
        details := none, url := none, sessionId := none, processorCall := none }
  | some p =>
      let amountFloat : ℚ := ratOfFloat p
      if amountFloat ≤ 0 ∨ amountFloat > 10000 then
        { status := 400, body_status := "error"
          message := some "Invalid amount. Must be a positive number less than 10,000"
          details := none, url := none, sessionId := none, processorCall := none }
      else
        let md : CreateMetadata :=
          { requestId := reqId
            userIp := stripV6Prefix ip
            username := username
            serverProvider := serverProvider }
        let params : CreateParams :=
          { currency := "usd"
            productName := "Game: " ++ serverProvider ++ " - Username: " ++ username
            productMetadata := md
            unit_amount := jsRound (amountFloat * 100)
            quantity := 1
            mode := "payment"
            metadata := md
            allowed_countries := ["US", "BR", "CA"]
            success_url := frontendUrl ++ "/payment-success?session_id=\x7bCHECKOUT_SESSION_ID\x7d"
            cancel_url := frontendUrl ++ "/payment-cancel"
            locale := "en"
            expires_at := nowMs / 1000 + 30 * 60 }
        finishCreate nodeEnv params (create params)

/-- The `POST /checkout` handler.  Environment and request context are
explicit (`frontendUrl` = `FRONTEND_URL`, `nodeEnv` = `NODE_ENV`, `reqId` =
`req.id`, `ip` = `req.ip`, `nowMs` = `Date.now()`); `serverProvider`,
`username`, `amount` are the body fields; `create` is the processor's
behaviour. -/
def checkoutHandler (frontendUrl nodeEnv reqId ip : String) (nowMs : Nat)
    (serverProvider username amount : String)
    (create : CreateParams → Except String CreatedSession) : CheckoutResponse :=
  if serverProvider = "" ∨ username = "" ∨ amount = "" then
    { status := 400, body_status := "error"
      message := some "Missing required fields"
      details := none, url := none, sessionId := none, processorCall := none }
  else
    checkoutWithAmount frontendUrl nodeEnv reqId ip nowMs serverProvider username
      (parseFloat amount) create

/-! ### Session Verifier (`index.js`, `GET /verify-payment/:sessionId`) -/

/-- A thrown Stripe SDK error: its `type` and `message`. -/
structure StripeError where
  type : String
  message : String
deriving DecidableEq

/-- The session object returned by `stripe.checkout.sessions.retrieve`,
flattened to the fields the route reads (all optional chains become
`Option`). `amount_total` is `none` when absent. -/
structure RetrievedSession where
  payment_status : String
  amount_total : Option Nat
  customerEmail : Option String
  customerName : Option String
  paymentMethodType : Option String
  paymentIntentId : Option String
  receiptUrl : Option String
deriving DecidableEq

/-- The `paymentDetails` sub-object of a successful verify response. -/
structure PaymentDetails where
  paymentMethod : Option String
  paymentId : Option String
  receiptUrl : Option String
deriving DecidableEq

/-- The verify route's observable outcome. -/
structure VerifyResponse where
  status : Nat
  body_status : String
  message : Option String
  details : Option String
  paymentStatus : Option String
  amount : Option String
  customerEmail : Option String
  customerName : Option String
  paymentDetails : Option PaymentDetails
deriving DecidableEq

/-- The source's test for a processor not-found error:
`error.type === 'StripeInvalidRequestError' &&
 error.message.includes('No such checkout.session')`. -/
def isNoSuchSession (e : StripeError) : Bool :=
  decide (e.type = "StripeInvalidRequestError") &&
    containsSubstr e.message "No such checkout.session"

/-- The tail of the verify route: the awaited
`stripe.checkout.sessions.retrieve` call inside the `try`; the `catch`
translates the not-found SDK error to 404 and everything else to 500. -/
def finishRetrieve (nodeEnv : String)
    (result : Except StripeError RetrievedSession) : VerifyResponse :=
  match result with
  | Except.ok session =>
      { status := 200, body_status := "success"
        message := none, details := none
        paymentStatus := some session.payment_status
        amount :=
          match session.amount_total with
          | some n => if n ≠ 0 then some (toFixed2 ((n : ℚ) / 100)) else none
          | none => none
        customerEmail := session.customerEmail
        customerName := session.customerName
        paymentDetails :=
          if session.payment_status = "paid" then
            some { paymentMethod := session.paymentMethodType
                   paymentId := session.paymentIntentId
                   receiptUrl := session.receiptUrl }
          else none }
  | Except.error e =>
      if isNoSuchSession e then
        { status := 404, body_status := "error"
          message := some "Payment session not found"
          details := none, paymentStatus := none, amount := none
          customerEmail := none, customerName := none, paymentDetails := none }
      else
        { status := 500, body_status := "error"
          message := some "Failed to verify payment status"
          details := some (if nodeEnv = "development" then e.message else "Internal server error")
          paymentStatus := none, amount := none
          customerEmail := none, customerName := none, paymentDetails := none }

/-- The `GET /verify-payment/:sessionId` handler.  `retrieve` is the
processor's behaviour (`Except.error` models a thrown SDK error). -/
def verifyPaymentHandler (nodeEnv sessionId : String)
    (retrieve : String → Except StripeError RetrievedSession) : VerifyResponse :=
  if sessionId.length < 10 then
    { status := 400, body_status := "error"
      message := some "Valid session ID is required"
      details := none, paymentStatus := none, amount := none
      customerEmail := none, customerName := none, paymentDetails := none }
  else if ¬ strStartsWith sessionId "cs_" then
    { status := 400, body_status := "error"
      message := some "Invalid session ID format"
      details := none, paymentStatus := none, amount := none
      customerEmail := none, customerName := none, paymentDetails := none }
  else
    finishRetrieve nodeEnv (retrieve sessionId)

/-! ## Theorems -/

/-- Shared helper: the processor call recorded by `finishCreate` is always
the parameters it was given to forward. -/
theorem finishCreate_processorCall (nodeEnv : String) (params : CreateParams)
    (result : Except String CreatedSession) :
    (finishCreate nodeEnv params result).processorCall = some params := by
  cases result <;> rfl

/-- Shared helper: `finishCreate` yields status 200 exactly on a successful
create, in which case `url`/`sessionId` come from the created session; on
any non-200 outcome both are absent. -/
theorem finishCreate_url_sessionId (nodeEnv : String) (params : CreateParams)
    (result : Except String CreatedSession) :
    ((finishCreate nodeEnv params result).status = 200 →
        ∃ s, result = Except.ok s ∧
          (finishCreate nodeEnv params result).url = some s.url ∧
          (finishCreate nodeEnv params result).sessionId = some s.id) ∧
      ((finishCreate nodeEnv params result).status ≠ 200 →
        (finishCreate nodeEnv params result).url = none ∧
        (finishCreate nodeEnv params result).sessionId = none) := by
  cases result with
  | ok s => exact ⟨fun _ => ⟨s, rfl, rfl, rfl⟩, fun h => absurd rfl h⟩
  | error e =>
      refine ⟨fun h => ?_, fun _ => ⟨rfl, rfl⟩⟩
      simp [finishCreate] at h

/-- C1: a webhook request whose signature verifies, whose event type is
`checkout.session.completed`, and whose session has `payment_status`
`"paid"`, invokes the Notification Sender exactly once, passing the
metadata's `serverProvider` and `username`, the session id as `paymentId`,
and `amount_total / 100` as the amount — whatever the sender then does. -/
theorem handleWebhook_paid_sends_once
    (event : StripeEvent) (send : PaymentData → Except String Bool)
    (htype : event.type = "checkout.session.completed")
    (hpaid : event.dataObject.payment_status = "paid") :
    (handleWebhook (Except.ok event) send).sends =
      [{ serverProvider := event.dataObject.metadata.serverProvider
         username := event.dataObject.metadata.username
         amount := (event.dataObject.amount_total : ℚ) / 100
         paymentId := event.dataObject.id }] := by
  simp only [handleWebhook, htype, hpaid, if_true, if_pos]
  cases h : send (paymentDataOf event.dataObject) <;> simp [paymentDataOf]

/-- C1 witness: a concrete paid `checkout.session.completed` event with
`amount_total` 2599 produces exactly one notification with amount 25.99. -/
theorem handleWebhook_paid_sends_once_witness :
    (handleWebhook
        (Except.ok
          { type := "checkout.session.completed"
            dataObject :=
              { id := "cs_test_1", payment_status := "paid"
                metadata := { username := "alice", serverProvider := "prov" }
                amount_total := 2599 } })
        (fun _ => Except.ok true)).sends =
      [{ serverProvider := "prov", username := "alice"
         amount := 25.99, paymentId := "cs_test_1" }] := by
  rw [handleWebhook_paid_sends_once _ _ rfl rfl]
  norm_num [PaymentData.mk.injEq]

/-- C2: a webhook request whose signature verification throws responds 400
with the failure reason and performs no Notification Sender invocation. -/
theorem handleWebhook_invalid_signature_400
    (msg : String) (send : PaymentData → Except String Bool) :
    handleWebhook (Except.error msg) send =
      { status := 400, body := "Webhook Error: " ++ msg, sends := [] } := rfl

/-- C3: once signature verification succeeds the handler replies 200 — for
any event type and any behaviour (success, failure or throw) of the
Notification Sender — and an event of an unrelated type triggers no
Notification Sender invocation. -/
theorem handleWebhook_verified_always_200
    (event : StripeEvent) (send : PaymentData → Except String Bool) :
    (handleWebhook (Except.ok event) send).status = 200 ∧
      (event.type ≠ "checkout.session.completed" →
        (handleWebhook (Except.ok event) send).sends = []) := by
  constructor
  · simp only [handleWebhook]
    by_cases htype : event.type = "checkout.session.completed"
    · rw [if_pos htype]
      by_cases hpaid : event.dataObject.payment_status = "paid"
      · rw [if_pos hpaid]
        cases h : send (paymentDataOf event.dataObject) <;> rfl
      · rw [if_neg hpaid]
    · rw [if_neg htype]
  · intro hne
    simp only [handleWebhook]
    rw [if_neg hne]

/-- C3 witness: a validly signed event of unrelated type `invoice.paid`,
with a sender that throws, still gets a 200 and no notification. -/
theorem handleWebhook_verified_always_200_witness :
    (handleWebhook
        (Except.ok
          { type := "invoice.paid"
            dataObject :=
              { id := "cs_other", payment_status := "paid"
                metadata := { username := "u", serverProvider := "p" }
                amount_total := 100 } })
        (fun _ => Except.error "sender crashed")).status = 200 ∧
      (handleWebhook
        (Except.ok
          { type := "invoice.paid"
            dataObject :=
              { id := "cs_other", payment_status := "paid"
                metadata := { username := "u", serverProvider := "p" }
                amount_total := 100 } })
        (fun _ => Except.error "sender crashed")).sends = [] :=
  ⟨(handleWebhook_verified_always_200 _ _).1,
    (handleWebhook_verified_always_200 _ _).2 (by decide)⟩

/-- C9: `sendPaymentConfirmation` returns a boolean for every input and
every transport behaviour: `true` when the transport send succeeds, and
`false` (not a propagated exception) when the transport throws. -/
theorem sendPaymentConfirmation_true_iff_transport_ok
    (emailUser now : String) (d : PaymentData)
    (sendMail : MailOptions → Except String Unit) :
    (sendMail (mailOptionsOf emailUser now d) = Except.ok () →
        sendPaymentConfirmation emailUser now d sendMail = true) ∧
      (∀ errMsg, sendMail (mailOptionsOf emailUser now d) = Except.error errMsg →
        sendPaymentConfirmation emailUser now d sendMail = false) := by
  constructor
  · intro h
    simp [sendPaymentConfirmation, h]
  · intro errMsg h
    simp [sendPaymentConfirmation, h]

/-- C9 witness: with a concrete payment and a transport that succeeds the
sender returns `true`; with a transport that throws it returns `false`. -/
theorem sendPaymentConfirmation_true_iff_transport_ok_witness :
    sendPaymentConfirmation "ops@example.com" "1/1/2026, 10:00:00 AM"
        { serverProvider := "prov", username := "alice"
          amount := 25.99, paymentId := "cs_test_1" }
        (fun _ => Except.ok ()) = true ∧
      sendPaymentConfirmation "ops@example.com" "1/1/2026, 10:00:00 AM"
        { serverProvider := "prov", username := "alice"
          amount := 25.99, paymentId := "cs_test_1" }
        (fun _ => Except.error "SMTP connection refused") = false :=
  ⟨(sendPaymentConfirmation_true_iff_transport_ok _ _ _ _).1 rfl,
    (sendPaymentConfirmation_true_iff_transport_ok _ _ _ _).2
      "SMTP connection refused" rfl⟩

/-- C4: a checkout request whose amount does not parse as a number, or
parses to a value ≤ 0 or > 10000, gets a 400 with a structured error body,
and no call to the payment processor is made. -/
theorem checkout_bad_amount_400_no_call
    (frontendUrl nodeEnv reqId ip : String) (nowMs : Nat)
    (sp u a : String) (create : CreateParams → Except String CreatedSession)
    (h : parseFloat a = none ∨
        ∃ p, parseFloat a = some p ∧ (ratOfFloat p ≤ 0 ∨ ratOfFloat p > 10000)) :
    (checkoutHandler frontendUrl nodeEnv reqId ip nowMs sp u a create).status = 400 ∧
      (checkoutHandler frontendUrl nodeEnv reqId ip nowMs sp u a create).processorCall = none ∧
      (checkoutHandler frontendUrl nodeEnv reqId ip nowMs sp u a create).body_status = "error" ∧
      ∃ m, (checkoutHandler frontendUrl nodeEnv reqId ip nowMs sp u a create).message = some m := by
  unfold checkoutHandler
  by_cases hempty : sp = "" ∨ u = "" ∨ a = ""
  · rw [if_pos hempty]
    exact ⟨rfl, rfl, rfl, _, rfl⟩
  · rw [if_neg hempty]
    rcases h with hnone | ⟨p, hp, hbad⟩
    · rw [hnone]
      exact ⟨rfl, rfl, rfl, _, rfl⟩
    · rw [hp]
      simp only [checkoutWithAmount]
      rw [if_pos hbad]
      exact ⟨rfl, rfl, rfl, _, rfl⟩

/-- C4 witness: amount `"-5"` (parsing to −5 ≤ 0) is rejected with 400, an
error body, and no processor call. -/
theorem checkout_bad_amount_400_no_call_witness :
    (checkoutHandler "http://localhost:5173" "production" "req1" "1.2.3.4" 0 "prov" "alice" "-5"
        (fun _ => Except.ok { url := "https://pay.example", id := "cs_9" })).status = 400 ∧
      (checkoutHandler "http://localhost:5173" "production" "req1" "1.2.3.4" 0 "prov" "alice" "-5"
        (fun _ => Except.ok { url := "https://pay.example", id := "cs_9" })).processorCall = none ∧
      (checkoutHandler "http://localhost:5173" "production" "req1" "1.2.3.4" 0 "prov" "alice" "-5"
        (fun _ => Except.ok { url := "https://pay.example", id := "cs_9" })).body_status = "error" ∧
      ∃ m, (checkoutHandler "http://localhost:5173" "production" "req1" "1.2.3.4" 0 "prov" "alice" "-5"
        (fun _ => Except.ok { url := "https://pay.example", id := "cs_9" })).message = some m :=
  checkout_bad_amount_400_no_call _ _ _ _ _ _ _ _ _
    (Or.inr ⟨(-5, 0), by decide, Or.inl (by norm_num [ratOfFloat])⟩)

/-- C5: for the amount input `"49.995"`, the minor-unit amount the checkout
route passes to the processor — `Math.round(parseFloat("49.995") * 100)` —
is 5000: the computation rounds half up at the cent boundary. -/
theorem checkout_49995_rounds_to_5000
    (frontendUrl nodeEnv reqId ip : String) (nowMs : Nat) (sp u : String)
    (create : CreateParams → Except String CreatedSession)
    (hsp : sp ≠ "") (hu : u ≠ "") :
    ∃ prm, (checkoutHandler frontendUrl nodeEnv reqId ip nowMs sp u "49.995" create).processorCall
        = some prm ∧ prm.unit_amount = 5000 := by
  unfold checkoutHandler
  rw [if_neg (by simp [hsp, hu])]
  rw [show parseFloat "49.995" = some (49995, -3) from by decide]
  simp only [checkoutWithAmount]
  rw [if_neg (by norm_num [ratOfFloat])]
  refine ⟨_, finishCreate_processorCall _ _ _, ?_⟩
  show jsRound (ratOfFloat (49995, -3) * 100) = 5000
  rw [jsRound, Int.floor_eq_iff]
  constructor <;> norm_num [ratOfFloat]

/-- C5 witness: the theorem instantiated at a concrete request. -/
theorem checkout_49995_rounds_to_5000_witness :
    ∃ prm, (checkoutHandler "http://localhost:5173" "production" "req1" "1.2.3.4" 0
        "prov" "alice" "49.995"
        (fun _ => Except.ok { url := "https://pay.example", id := "cs_10" })).processorCall
        = some prm ∧ prm.unit_amount = 5000 :=
  checkout_49995_rounds_to_5000 _ _ _ _ _ _ _ _ (by decide) (by decide)

/-- C6 counterexample: the claim says amount exactly 10000 is rejected with
a 400 validation error, but the code's check is `amountFloat > 10000`, so a
checkout with amount `"10000"` succeeds (status 200) and the processor is
called. -/
theorem checkout_amount_10000_not_rejected :
    (checkoutHandler "http://localhost:5173" "production" "req1" "1.2.3.4" 0 "prov" "alice" "10000"
        (fun _ => Except.ok { url := "https://pay.example", id := "cs_11" })).status = 200 ∧
      (checkoutHandler "http://localhost:5173" "production" "req1" "1.2.3.4" 0 "prov" "alice" "10000"
        (fun _ => Except.ok { url := "https://pay.example", id := "cs_11" })).processorCall
        ≠ none := by
  have hv : ¬ (ratOfFloat (10000, 0) ≤ 0 ∨ ratOfFloat (10000, 0) > 10000) := by
    norm_num [ratOfFloat]
  constructor
  · unfold checkoutHandler
    rw [if_neg (by decide)]
    rw [show parseFloat "10000" = some (10000, 0) from by decide]
    simp only [checkoutWithAmount]
    rw [if_neg hv]
    rfl
  · unfold checkoutHandler
    rw [if_neg (by decide)]
    rw [show parseFloat "10000" = some (10000, 0) from by decide]
    simp only [checkoutWithAmount]
    rw [if_neg hv]
    rw [finishCreate_processorCall]
    exact Option.some_ne_none _

/-- C6 amended: the route accepts an amount only if it parses as a positive
number at most 10000 — the bound is inclusive: a parsed amount strictly
greater than 10000 is rejected with 400 and no processor call, while a
positive parsed amount up to and including 10000 (with the other fields
non-empty) reaches the processor. -/
theorem checkout_amount_boundary
    (frontendUrl nodeEnv reqId ip : String) (nowMs : Nat)
    (sp u a : String) (create : CreateParams → Except String CreatedSession)
    (p : Int × Int) (hp : parseFloat a = some p) :
    (ratOfFloat p > 10000 →
        (checkoutHandler frontendUrl nodeEnv reqId ip nowMs sp u a create).status = 400 ∧
        (checkoutHandler frontendUrl nodeEnv reqId ip nowMs sp u a create).processorCall = none) ∧
      (0 < ratOfFloat p → ratOfFloat p ≤ 10000 → sp ≠ "" → u ≠ "" →
        (checkoutHandler frontendUrl nodeEnv reqId ip nowMs sp u a create).processorCall.isSome
          = true) := by
  have ha : a ≠ "" := by
    intro h0
    rw [h0, show parseFloat "" = none from by decide] at hp
    exact Option.noConfusion hp
  constructor
  · intro hgt
    unfold checkoutHandler
    by_cases hempty : sp = "" ∨ u = "" ∨ a = ""
    · rw [if_pos hempty]
      exact ⟨rfl, rfl⟩
    · rw [if_neg hempty, hp]
      simp only [checkoutWithAmount]
      rw [if_pos (Or.inr hgt)]
      exact ⟨rfl, rfl⟩
  · intro h0 hle hsp hu
    unfold checkoutHandler
    rw [if_neg (by simp [hsp, hu, ha])]
    rw [hp]
    simp only [checkoutWithAmount]
    rw [if_neg (by push_neg; exact ⟨h0, hle⟩)]
    rw [finishCreate_processorCall]
    rfl

/-- C6 amended witness: amount `"10000"` passes validation and produces a
processor call. -/
theorem checkout_amount_boundary_witness :
    (checkoutHandler "http://localhost:5173" "production" "req1" "1.2.3.4" 0 "prov" "alice" "10000"
        (fun _ => Except.ok { url := "https://pay.example", id := "cs_12" })).processorCall.isSome
      = true :=
  (checkout_amount_boundary _ _ _ _ _ _ _ _ _ (10000, 0) (by decide)).2
    (by norm_num [ratOfFloat]) (by norm_num [ratOfFloat]) (by decide) (by decide)

/-- C7: a 200 checkout response carries the processor-issued `url` and
`sessionId`; every non-200 response carries neither. -/
theorem checkout_url_sessionId_success_only
    (frontendUrl nodeEnv reqId ip : String) (nowMs : Nat)
    (sp u a : String) (create : CreateParams → Except String CreatedSession) :
    ((checkoutHandler frontendUrl nodeEnv reqId ip nowMs sp u a create).status = 200 →
        ∃ prm s, create prm = Except.ok s ∧
          (checkoutHandler frontendUrl nodeEnv reqId ip nowMs sp u a create).url = some s.url ∧
          (checkoutHandler frontendUrl nodeEnv reqId ip nowMs sp u a create).sessionId
            = some s.id) ∧
      ((checkoutHandler frontendUrl nodeEnv reqId ip nowMs sp u a create).status ≠ 200 →
        (checkoutHandler frontendUrl nodeEnv reqId ip nowMs sp u a create).url = none ∧
        (checkoutHandler frontendUrl nodeEnv reqId ip nowMs sp u a create).sessionId = none) := by
  unfold checkoutHandler
  by_cases hempty : sp = "" ∨ u = "" ∨ a = ""
  · rw [if_pos hempty]
    exact ⟨fun h => absurd (show (400 : Nat) = 200 from h) (by decide), fun _ => ⟨rfl, rfl⟩⟩
  · rw [if_neg hempty]
    cases hpf : parseFloat a with
    | none =>
        exact ⟨fun h => absurd (show (400 : Nat) = 200 from h) (by decide), fun _ => ⟨rfl, rfl⟩⟩
    | some p =>
        simp only [checkoutWithAmount]
        by_cases hval : ratOfFloat p ≤ 0 ∨ ratOfFloat p > 10000
        · rw [if_pos hval]
          exact ⟨fun h => absurd (show (400 : Nat) = 200 from h) (by decide), fun _ => ⟨rfl, rfl⟩⟩
        · rw [if_neg hval]
          constructor
          · intro h200
            obtain ⟨s, hs, hurl, hsid⟩ := (finishCreate_url_sessionId _ _ _).1 h200
            exact ⟨_, s, hs, hurl, hsid⟩
          · exact (finishCreate_url_sessionId _ _ _).2

/-- C7 witness: a valid request against a succeeding processor yields a 200
carrying the issued url and session id. -/
theorem checkout_url_sessionId_success_only_witness :
    ∃ prm s,
      (fun _ => Except.ok { url := "https://pay.example", id := "cs_13" } :
          CreateParams → Except String CreatedSession) prm = Except.ok s ∧
        (checkoutHandler "http://localhost:5173" "production" "req1" "1.2.3.4" 0
            "prov" "alice" "25"
            (fun _ => Except.ok { url := "https://pay.example", id := "cs_13" })).url
          = some s.url ∧
        (checkoutHandler "http://localhost:5173" "production" "req1" "1.2.3.4" 0
            "prov" "alice" "25"
            (fun _ => Except.ok { url := "https://pay.example", id := "cs_13" })).sessionId
          = some s.id := by
  refine (checkout_url_sessionId_success_only _ _ _ _ _ _ _ _ _).1 ?_
  unfold checkoutHandler
  rw [if_neg (by decide)]
  rw [show parseFloat "25" = some (25, 0) from by decide]
  simp only [checkoutWithAmount]
  rw [if_neg (by norm_num [ratOfFloat])]
  rfl

/-- C8: when the processor call in the verify route throws, the error the
source recognises as "no such checkout session" is translated to a 404 with
the domain message `Payment session not found`; every other processor error
becomes a generic 500. -/
theorem verifyPayment_notFound_404_else_500
    (nodeEnv sid : String) (retrieve : String → Except StripeError RetrievedSession)
    (e : StripeError)
    (hlen : ¬ sid.length < 10) (hpre : strStartsWith sid "cs_" = true)
    (herr : retrieve sid = Except.error e) :
    (isNoSuchSession e = true →
        (verifyPaymentHandler nodeEnv sid retrieve).status = 404 ∧
        (verifyPaymentHandler nodeEnv sid retrieve).message
          = some "Payment session not found") ∧
      (isNoSuchSession e = false →
        (verifyPaymentHandler nodeEnv sid retrieve).status = 500 ∧
        (verifyPaymentHandler nodeEnv sid retrieve).message
          = some "Failed to verify payment status") := by
  unfold verifyPaymentHandler
  rw [if_neg hlen, if_neg (by simp [hpre]), herr]
  simp only [finishRetrieve]
  constructor
  · intro hnf
    rw [if_pos hnf]
    exact ⟨rfl, rfl⟩
  · intro hnf
    rw [if_neg (by simp [hnf])]
    exact ⟨rfl, rfl⟩

/-- C8 witness: a well-formed session id whose retrieval throws the
not-found error yields 404 with the domain message. -/
theorem verifyPayment_notFound_404_else_500_witness :
    (verifyPaymentHandler "production" "cs_abcdefgh"
        (fun _ => Except.error
          { type := "StripeInvalidRequestError"
            message := "No such checkout.session: cs_abcdefgh" })).status = 404 ∧
      (verifyPaymentHandler "production" "cs_abcdefgh"
        (fun _ => Except.error
          { type := "StripeInvalidRequestError"
            message := "No such checkout.session: cs_abcdefgh" })).message
        = some "Payment session not found" :=
  (verifyPayment_notFound_404_else_500 _ _ _ _ (by decide) (by decide) rfl).1 (by decide)

/-- C10: in a successful verify response the `amount` field is absent
(`null`) whenever the session's `amount_total` is missing or 0 — the JS
truthiness guard — and for a non-zero `amount_total` it is the fixed
two-decimal rendering of `amount_total / 100`. -/
theorem verifyPayment_amount_truthiness
    (nodeEnv sid : String) (retrieve : String → Except StripeError RetrievedSession)
    (s : RetrievedSession)
    (hlen : ¬ sid.length < 10) (hpre : strStartsWith sid "cs_" = true)
    (hok : retrieve sid = Except.ok s) :
    (verifyPaymentHandler nodeEnv sid retrieve).status = 200 ∧
      ((s.amount_total = none ∨ s.amount_total = some 0) →
        (verifyPaymentHandler nodeEnv sid retrieve).amount = none) ∧
      (∀ n, s.amount_total = some n → n ≠ 0 →
        (verifyPaymentHandler nodeEnv sid retrieve).amount
          = some (toFixed2 ((n : ℚ) / 100))) := by
  unfold verifyPaymentHandler
  rw [if_neg hlen, if_neg (by simp [hpre]), hok]
  simp only [finishRetrieve]
  refine ⟨trivial, fun hz => ?_, fun n hn hnz => ?_⟩
  · rcases hz with hz | hz
    · rw [hz]
    · rw [hz]; rfl
  · rw [hn]
    show (if n ≠ 0 then some (toFixed2 ((n : ℚ) / 100)) else none)
      = some (toFixed2 ((n : ℚ) / 100))
    rw [if_pos hnz]

/-- C10 witness: `amount_total` 2599 renders as `"25.99"`, while
`amount_total` 0 renders as `null` (not `"0.00"`). -/
theorem verifyPayment_amount_truthiness_witness :
    (verifyPaymentHandler "production" "cs_abcdefgh"
        (fun _ => Except.ok
          { payment_status := "paid", amount_total := some 2599
            customerEmail := none, customerName := none
            paymentMethodType := none, paymentIntentId := none
            receiptUrl := none })).amount = some "25.99" ∧
      (verifyPaymentHandler "production" "cs_abcdefgh"
        (fun _ => Except.ok
          { payment_status := "unpaid", amount_total := some 0
            customerEmail := none, customerName := none
            paymentMethodType := none, paymentIntentId := none
            receiptUrl := none })).amount = none := by
  constructor
  · have h := (verifyPayment_amount_truthiness "production" "cs_abcdefgh"
      (fun _ => Except.ok
        { payment_status := "paid", amount_total := some 2599
          customerEmail := none, customerName := none
          paymentMethodType := none, paymentIntentId := none
          receiptUrl := none })
      { payment_status := "paid", amount_total := some 2599
        customerEmail := none, customerName := none
        paymentMethodType := none, paymentIntentId := none
        receiptUrl := none }
      (by decide) (by decide) rfl).2.2 2599 rfl (by decide)
    rw [h]
    with_unfolding_all decide
  · exact (verifyPayment_amount_truthiness "production" "cs_abcdefgh"
      (fun _ => Except.ok
        { payment_status := "unpaid", amount_total := some 0
          customerEmail := none, customerName := none
          paymentMethodType := none, paymentIntentId := none
          receiptUrl := none })
      { payment_status := "unpaid", amount_total := some 0
        customerEmail := none, customerName := none
        paymentMethodType := none, paymentIntentId := none
        receiptUrl := none }
      (by decide) (by decide) rfl).2.1 (Or.inr rfl)

end Pay
